import Mathlib

/-
Verification of the camera projection module
(crates/bevy_render/src/camera/projection.rs).

Scalars: the source works on `f32`.  We model `f32` values exactly, as the
sum of a finite value (an exact rational), the two infinities and NaN.
Rounding is not modelled (every arithmetic result the module computes is
kept exact); signed zero is not modelled (zero is treated as +0).  The only
arithmetic the module performs is negation, multiplication and division,
so only those are defined, following the IEEE-754 special-value tables.
-/

inductive F32 where
  | finite (q : ℚ)
  | inf
  | negInf
  | nan
deriving DecidableEq

def F32.neg : F32 → F32
  | finite q => finite (-q)
  | inf => negInf
  | negInf => inf
  | nan => nan

instance : Neg F32 := ⟨F32.neg⟩

def F32.mul : F32 → F32 → F32
  | nan, _ => nan
  | _, nan => nan
  | finite a, finite b => finite (a * b)
  | finite a, inf => if a = 0 then nan else if 0 < a then inf else negInf
  | finite a, negInf => if a = 0 then nan else if 0 < a then negInf else inf
  | inf, finite b => if b = 0 then nan else if 0 < b then inf else negInf
  | negInf, finite b => if b = 0 then nan else if 0 < b then negInf else inf
  | inf, inf => inf
  | inf, negInf => negInf
  | negInf, inf => negInf
  | negInf, negInf => inf

instance : Mul F32 := ⟨F32.mul⟩

def F32.div : F32 → F32 → F32
  | nan, _ => nan
  | _, nan => nan
  | finite a, finite b =>
      if b = 0 then (if a = 0 then nan else if 0 < a then inf else negInf)
      else finite (a / b)
  | finite _, inf => finite 0
  | finite _, negInf => finite 0
  | inf, finite b => if 0 ≤ b then inf else negInf
  | negInf, finite b => if 0 ≤ b then negInf else inf
  | inf, inf => nan
  | inf, negInf => nan
  | negInf, inf => nan
  | negInf, negInf => nan

instance : Div F32 := ⟨F32.div⟩

instance (n : Nat) : OfNat F32 n := ⟨F32.finite n⟩

def F32.isFinite : F32 → Bool
  | finite _ => true
  | _ => false

/-- Strictly positive in the IEEE order (a positive finite value or +∞). -/
def F32.isPos : F32 → Bool
  | finite q => decide (0 < q)
  | inf => true
  | _ => false

/-- The IEEE-754 binary32 value of `std::f32::consts::PI` (bit pattern
0x40490FDB), as an exact rational: 13176795 / 2^22. -/
def f32_pi : F32 := F32.finite (13176795 / 4194304)

theorem F32.finite_div_finite (a b : ℚ) (hb : b ≠ 0) :
    F32.finite a / F32.finite b = F32.finite (a / b) := by
  show F32.div (F32.finite a) (F32.finite b) = F32.finite (a / b)
  simp [F32.div, hb]

theorem F32.finite_div_zero (a : ℚ) (ha : 0 < a) :
    F32.finite a / F32.finite 0 = F32.inf := by
  show F32.div (F32.finite a) (F32.finite 0) = F32.inf
  simp [F32.div, ha, ha.ne']

theorem F32.neg_finite (a : ℚ) : -(F32.finite a) = F32.finite (-a) := rfl

/-- Negation moves through multiplication, including the IEEE special
values: `(-a) * b = -(a * b)` for every `F32` value. -/
theorem F32.negMul (a b : F32) : (-a) * b = -(a * b) := by
  show F32.mul (F32.neg a) b = F32.neg (F32.mul a b)
  cases a <;> cases b <;> try rfl
  all_goals simp only [F32.mul, F32.neg]
  case finite.finite q r => rw [neg_mul]
  all_goals
    (rename_i q
     rcases lt_trichotomy q 0 with h | h | h <;>
       split_ifs <;> simp_all [F32.neg] <;> linarith)

/-- Modelled from the spec: `DepthCalculation` is declared outside this
module (in the sibling camera module); the spec names exactly its two
values, `Distance` and `ZDifference`, which are also the two constructors
the source refers to. -/
inductive DepthCalculation where
  | Distance
  | ZDifference
deriving DecidableEq

/-- Modelled from the spec: `bevy_math::Mat4` is an external black-box
numeric primitive.  The module only ever builds matrices through its two
pure constructors (`perspective_rh`, `orthographic_rh`), so a matrix is
modelled as the record of which constructor was applied to which
arguments. -/
inductive Mat4 where
  | perspective_rh (fov aspect_ratio near far : F32)
  | orthographic_rh (left right bottom top near far : F32)
deriving DecidableEq

inductive WindowOrigin where
  | Center
  | BottomLeft
deriving DecidableEq

inductive BaseAxis where
  | Vertical
  | Horizontal
deriving DecidableEq

structure PerspectiveProjection where
  fov : F32
  aspect_ratio : F32
  near : F32
  far : F32
deriving DecidableEq

def PerspectiveProjection.get_projection_matrix (p : PerspectiveProjection) : Mat4 :=
  Mat4.perspective_rh p.fov p.aspect_ratio p.near p.far

def PerspectiveProjection.update (p : PerspectiveProjection) (width height : F32) :
    PerspectiveProjection :=
  { p with aspect_ratio := width / height }

def PerspectiveProjection.depth_calculation (_ : PerspectiveProjection) : DepthCalculation :=
  DepthCalculation.Distance

def PerspectiveProjection.default : PerspectiveProjection :=
  { fov := f32_pi / 4
    near := 1
    far := 1000
    aspect_ratio := 1 }

structure OrthographicProjection where
  left : F32
  right : F32
  bottom : F32
  top : F32
  near : F32
  far : F32
  window_origin : WindowOrigin
deriving DecidableEq

def OrthographicProjection.get_projection_matrix (p : OrthographicProjection) : Mat4 :=
  Mat4.orthographic_rh p.left p.right p.bottom p.top p.near p.far

def OrthographicProjection.update (p : OrthographicProjection) (width height : F32) :
    OrthographicProjection :=
  match p.window_origin with
  | WindowOrigin.Center =>
      let half_width := width / 2
      let half_height := height / 2
      { p with
          left := -half_width
          right := half_width
          top := half_height
          bottom := -half_height }
  | WindowOrigin.BottomLeft =>
      { p with
          left := 0
          right := width
          top := height
          bottom := 0 }

def OrthographicProjection.depth_calculation (_ : OrthographicProjection) : DepthCalculation :=
  DepthCalculation.ZDifference

def OrthographicProjection.default : OrthographicProjection :=
  { left := 0
    right := 0
    bottom := 0
    top := 0
    near := 0
    far := 1000
    window_origin := WindowOrigin.Center }

structure ScaledOrthographicProjection where
  scale : F32
  aspect_ratio : F32
  near : F32
  far : F32
  window_origin : WindowOrigin
  base_axis : BaseAxis
deriving DecidableEq

def ScaledOrthographicProjection.get_projection_matrix
    (p : ScaledOrthographicProjection) : Mat4 :=
  match p.window_origin, p.base_axis with
  | WindowOrigin.Center, BaseAxis.Vertical =>
      Mat4.orthographic_rh
        ((-p.aspect_ratio) * p.scale)
        (p.aspect_ratio * p.scale)
        (-p.scale)
        p.scale
        p.near
        p.far
  | WindowOrigin.BottomLeft, BaseAxis.Vertical =>
      Mat4.orthographic_rh
        0
        (p.aspect_ratio * p.scale)
        0
        p.scale
        p.near
        p.far
  | WindowOrigin.Center, BaseAxis.Horizontal =>
      Mat4.orthographic_rh
        (-p.scale)
        p.scale
        ((-p.aspect_ratio) * p.scale)
        (p.aspect_ratio * p.scale)
        p.near
        p.far
  | WindowOrigin.BottomLeft, BaseAxis.Horizontal =>
      Mat4.orthographic_rh
        0
        p.scale
        0
        (p.aspect_ratio * p.scale)
        p.near
        p.far

def ScaledOrthographicProjection.update (p : ScaledOrthographicProjection)
    (width height : F32) : ScaledOrthographicProjection :=
  { p with
      aspect_ratio :=
        match p.base_axis with
        | BaseAxis.Vertical => width / height
        | BaseAxis.Horizontal => height / width }

def ScaledOrthographicProjection.depth_calculation
    (_ : ScaledOrthographicProjection) : DepthCalculation :=
  DepthCalculation.ZDifference

def ScaledOrthographicProjection.default : ScaledOrthographicProjection :=
  { scale := 1
    aspect_ratio := 1
    near := 0
    far := 1000
    window_origin := WindowOrigin.Center
    base_axis := BaseAxis.Vertical }

/-- Iterated resize: apply `update` for each `(width, height)` pair in turn. -/
def PerspectiveProjection.updates (p : PerspectiveProjection)
    (l : List (F32 × F32)) : PerspectiveProjection :=
  l.foldl (fun q wh => q.update wh.1 wh.2) p

/-- Iterated resize: apply `update` for each `(width, height)` pair in turn. -/
def OrthographicProjection.updates (p : OrthographicProjection)
    (l : List (F32 × F32)) : OrthographicProjection :=
  l.foldl (fun q wh => q.update wh.1 wh.2) p

/-- Iterated resize: apply `update` for each `(width, height)` pair in turn. -/
def ScaledOrthographicProjection.updates (p : ScaledOrthographicProjection)
    (l : List (F32 × F32)) : ScaledOrthographicProjection :=
  l.foldl (fun q wh => q.update wh.1 wh.2) p

example : (PerspectiveProjection.default.update 800 600).aspect_ratio
    = F32.finite (4 / 3) := by
  show (800 : F32) / 600 = F32.finite (4 / 3)
  rw [show (800 : F32) = F32.finite ((800 : ℕ) : ℚ) from rfl,
      show (600 : F32) = F32.finite ((600 : ℕ) : ℚ) from rfl,
      F32.finite_div_finite _ _ (by norm_num)]
  norm_num

example : (OrthographicProjection.default.update 1920 1080).left
    = F32.finite (-960) := by
  show -((1920 : F32) / 2) = F32.finite (-960)
  rw [show (1920 : F32) = F32.finite ((1920 : ℕ) : ℚ) from rfl,
      show (2 : F32) = F32.finite ((2 : ℕ) : ℚ) from rfl,
      F32.finite_div_finite _ _ (by norm_num), F32.neg_finite]
  norm_num

example : (ScaledOrthographicProjection.default.update 1000 500).aspect_ratio
    = F32.finite 2 := by
  show (1000 : F32) / 500 = F32.finite 2
  rw [show (1000 : F32) = F32.finite ((1000 : ℕ) : ℚ) from rfl,
      show (500 : F32) = F32.finite ((500 : ℕ) : ℚ) from rfl,
      F32.finite_div_finite _ _ (by norm_num)]
  norm_num

/-- The bounds table stated by the spec for
`ScaledOrthographicProjection::get_projection_matrix`: the horizontal
extent is `aspect_ratio * scale` and the vertical extent is `scale` when
`base_axis = Vertical` (swapped for `Horizontal`); for `Center` each axis
runs `[-extent, +extent]`, for `BottomLeft` it runs `[0, extent]` (the
spec's "[0, 2*extent]" where `extent` is already the full-range value);
`near` and `far` are passed through unchanged. -/
def scaledMatrixSpec (p : ScaledOrthographicProjection) : Mat4 :=
  match p.window_origin, p.base_axis with
  | WindowOrigin.Center, BaseAxis.Vertical =>
      Mat4.orthographic_rh (-(p.aspect_ratio * p.scale)) (p.aspect_ratio * p.scale)
        (-p.scale) p.scale p.near p.far
  | WindowOrigin.BottomLeft, BaseAxis.Vertical =>
      Mat4.orthographic_rh 0 (p.aspect_ratio * p.scale) 0 p.scale p.near p.far
  | WindowOrigin.Center, BaseAxis.Horizontal =>
      Mat4.orthographic_rh (-p.scale) p.scale (-(p.aspect_ratio * p.scale))
        (p.aspect_ratio * p.scale) p.near p.far
  | WindowOrigin.BottomLeft, BaseAxis.Horizontal =>
      Mat4.orthographic_rh 0 p.scale 0 (p.aspect_ratio * p.scale) p.near p.far

/-- Claim C1: for every `OrthographicProjection` and positive `width`,
`height`: `update` with `window_origin = Center` sets `left = -width/2`,
`right = width/2`, `top = height/2`, `bottom = -height/2`; with
`window_origin = BottomLeft` it sets `left = 0`, `right = width`,
`top = height`, `bottom = 0`; in both cases `near` and `far` are left
unchanged. -/
theorem c1_orthographic_update_bounds (p : OrthographicProjection) (w h : F32)
    (hw : w.isPos = true) (hh : h.isPos = true) :
    (p.window_origin = WindowOrigin.Center →
      (p.update w h).left = -(w / 2) ∧ (p.update w h).right = w / 2 ∧
      (p.update w h).top = h / 2 ∧ (p.update w h).bottom = -(h / 2)) ∧
    (p.window_origin = WindowOrigin.BottomLeft →
      (p.update w h).left = 0 ∧ (p.update w h).right = w ∧
      (p.update w h).top = h ∧ (p.update w h).bottom = 0) ∧
    (p.update w h).near = p.near ∧ (p.update w h).far = p.far := by
  obtain ⟨l, r, b, t, n, f, wo⟩ := p
  cases wo <;> simp [OrthographicProjection.update]

/-- Concrete instance of claim C1: the default orthographic projection
(`Center`) resized to 1920 x 1080 has `left = -(1920 / 2)`. -/
theorem c1_orthographic_update_bounds_witness :
    F32.isPos 1920 = true ∧ F32.isPos 1080 = true ∧
    (OrthographicProjection.default.update 1920 1080).left = -((1920 : F32) / 2) :=
  ⟨by decide, by decide,
   ((c1_orthographic_update_bounds OrthographicProjection.default 1920 1080
      (by decide) (by decide)).1 rfl).1⟩

/-- Claim C2: `ScaledOrthographicProjection::get_projection_matrix` equals
the spec's four-way bounds table over `(window_origin, base_axis)`, with
`near` and `far` passed through unchanged. -/
theorem c2_scaled_matrix_case_split (p : ScaledOrthographicProjection) :
    p.get_projection_matrix = scaledMatrixSpec p := by
  obtain ⟨s, a, n, f, wo, ba⟩ := p
  cases wo <;> cases ba <;>
    simp [ScaledOrthographicProjection.get_projection_matrix, scaledMatrixSpec,
      F32.negMul]

/-- Claim C3: for every `PerspectiveProjection` and positive `width`,
`height`: `update` sets `aspect_ratio = width / height` (the embedded f32
division) and leaves `fov`, `near` and `far` unchanged. -/
theorem c3_perspective_update (p : PerspectiveProjection) (w h : F32)
    (hw : w.isPos = true) (hh : h.isPos = true) :
    (p.update w h).aspect_ratio = w / h ∧ (p.update w h).fov = p.fov ∧
    (p.update w h).near = p.near ∧ (p.update w h).far = p.far :=
  ⟨rfl, rfl, rfl, rfl⟩

/-- Concrete instance of claim C3: the default perspective projection
resized to 800 x 600 has `aspect_ratio = 800 / 600` and `fov` still
`f32_pi / 4`. -/
theorem c3_perspective_update_witness :
    F32.isPos 800 = true ∧ F32.isPos 600 = true ∧
    (PerspectiveProjection.default.update 800 600).aspect_ratio = (800 : F32) / 600 ∧
    (PerspectiveProjection.default.update 800 600).fov = f32_pi / 4 :=
  ⟨by decide, by decide,
   (c3_perspective_update PerspectiveProjection.default 800 600
      (by decide) (by decide)).1,
   (c3_perspective_update PerspectiveProjection.default 800 600
      (by decide) (by decide)).2.1⟩

/-- Claim C4: for every `ScaledOrthographicProjection` and positive
`width`, `height`: `update` sets `aspect_ratio = width / height` when
`base_axis = Vertical` and `aspect_ratio = height / width` when
`base_axis = Horizontal`, and leaves `scale`, `near`, `far`,
`window_origin` and `base_axis` unchanged. -/
theorem c4_scaled_update (p : ScaledOrthographicProjection) (w h : F32)
    (hw : w.isPos = true) (hh : h.isPos = true) :
    (p.base_axis = BaseAxis.Vertical → (p.update w h).aspect_ratio = w / h) ∧
    (p.base_axis = BaseAxis.Horizontal → (p.update w h).aspect_ratio = h / w) ∧
    (p.update w h).scale = p.scale ∧ (p.update w h).near = p.near ∧
    (p.update w h).far = p.far ∧
    (p.update w h).window_origin = p.window_origin ∧
    (p.update w h).base_axis = p.base_axis := by
  obtain ⟨s, a, n, f, wo, ba⟩ := p
  cases ba <;> simp [ScaledOrthographicProjection.update]

/-- Concrete instance of claim C4: the default scaled orthographic
projection (`Vertical`) resized to 1000 x 500 has
`aspect_ratio = 1000 / 500` and `scale` unchanged. -/
theorem c4_scaled_update_witness :
    F32.isPos 1000 = true ∧ F32.isPos 500 = true ∧
    (ScaledOrthographicProjection.default.update 1000 500).aspect_ratio
      = (1000 : F32) / 500 ∧
    (ScaledOrthographicProjection.default.update 1000 500).scale
      = ScaledOrthographicProjection.default.scale :=
  ⟨by decide, by decide,
   (c4_scaled_update ScaledOrthographicProjection.default 1000 500
      (by decide) (by decide)).1 rfl,
   (c4_scaled_update ScaledOrthographicProjection.default 1000 500
      (by decide) (by decide)).2.2.1⟩

/-- Division of a strictly positive value by zero yields +∞. -/
theorem F32.pos_div_zero (w : F32) (hw : w.isPos = true) : w / 0 = F32.inf := by
  cases w with
  | finite q =>
      have hq : (0 : ℚ) < q := by simpa [F32.isPos] using hw
      show F32.div (F32.finite q) (F32.finite ((0 : ℕ) : ℚ)) = F32.inf
      simp [F32.div, hq, hq.ne']
  | inf =>
      show F32.div F32.inf (F32.finite ((0 : ℕ) : ℚ)) = F32.inf
      simp [F32.div]
  | negInf => simp [F32.isPos] at hw
  | nan => simp [F32.isPos] at hw

/-- Division of zero by a strictly positive value yields a finite value. -/
theorem F32.isFinite_zero_div (w : F32) (hw : w.isPos = true) :
    F32.isFinite ((0 : F32) / w) = true := by
  cases w with
  | finite q =>
      have hq : (0 : ℚ) < q := by simpa [F32.isPos] using hw
      show F32.isFinite (F32.div (F32.finite ((0 : ℕ) : ℚ)) (F32.finite q)) = true
      simp [F32.div, F32.isFinite, hq.ne']
  | inf => rfl
  | negInf => simp [F32.isPos] at hw
  | nan => simp [F32.isPos] at hw

/-- A second `update` with any dimensions fully overwrites the effect of a
first one (`PerspectiveProjection`). -/
theorem perspective_update_overwrite (p : PerspectiveProjection)
    (w h w' h' : F32) : (p.update w h).update w' h' = p.update w' h' := rfl

/-- A second `update` with any dimensions fully overwrites the effect of a
first one (`OrthographicProjection`). -/
theorem orthographic_update_overwrite (p : OrthographicProjection)
    (w h w' h' : F32) : (p.update w h).update w' h' = p.update w' h' := by
  obtain ⟨l, r, b, t, n, f, wo⟩ := p
  cases wo <;> rfl

/-- A second `update` with any dimensions fully overwrites the effect of a
first one (`ScaledOrthographicProjection`). -/
theorem scaled_update_overwrite
    (p : ScaledOrthographicProjection) (w h w' h' : F32) :
    (p.update w h).update w' h' = p.update w' h' := by
  obtain ⟨s, a, n, f, wo, ba⟩ := p
  cases ba <;> rfl

/-- A trailing `update` after any sequence of updates acts like an `update`
on the original value (`PerspectiveProjection`). -/
theorem perspective_updates_last (p : PerspectiveProjection)
    (l : List (F32 × F32)) (w h : F32) :
    (p.updates l).update w h = p.update w h := by
  induction l generalizing p with
  | nil => rfl
  | cons x xs ih =>
      show ((p.update x.1 x.2).updates xs).update w h = p.update w h
      rw [ih, perspective_update_overwrite]

/-- A trailing `update` after any sequence of updates acts like an `update`
on the original value (`OrthographicProjection`). -/
theorem orthographic_updates_last (p : OrthographicProjection)
    (l : List (F32 × F32)) (w h : F32) :
    (p.updates l).update w h = p.update w h := by
  induction l generalizing p with
  | nil => rfl
  | cons x xs ih =>
      show ((p.update x.1 x.2).updates xs).update w h = p.update w h
      rw [ih, orthographic_update_overwrite]

/-- A trailing `update` after any sequence of updates acts like an `update`
on the original value (`ScaledOrthographicProjection`). -/
theorem scaled_updates_last
    (p : ScaledOrthographicProjection) (l : List (F32 × F32)) (w h : F32) :
    (p.updates l).update w h = p.update w h := by
  induction l generalizing p with
  | nil => rfl
  | cons x xs ih =>
      show ((p.update x.1 x.2).updates xs).update w h = p.update w h
      rw [ih, scaled_update_overwrite]

/-- The full observable field state, as a tuple (`PerspectiveProjection`). -/
def PerspectiveProjection.fields (p : PerspectiveProjection) :
    F32 × F32 × F32 × F32 :=
  (p.fov, p.aspect_ratio, p.near, p.far)

/-- The full observable field state, as a tuple (`OrthographicProjection`). -/
def OrthographicProjection.fields (p : OrthographicProjection) :
    F32 × F32 × F32 × F32 × F32 × F32 × WindowOrigin :=
  (p.left, p.right, p.bottom, p.top, p.near, p.far, p.window_origin)

/-- The full observable field state, as a tuple
(`ScaledOrthographicProjection`). -/
def ScaledOrthographicProjection.fields (p : ScaledOrthographicProjection) :
    F32 × F32 × F32 × F32 × WindowOrigin × BaseAxis :=
  (p.scale, p.aspect_ratio, p.near, p.far, p.window_origin, p.base_axis)

/-- Claim C5: `depth_calculation` returns a fixed value per variant,
invariant under any sequence of `update` calls from any field state:
`Distance` for `PerspectiveProjection`, `ZDifference` for
`OrthographicProjection` and `ScaledOrthographicProjection`. -/
theorem c5_depth_calculation_constant :
    (∀ (p : PerspectiveProjection) (l : List (F32 × F32)),
      (p.updates l).depth_calculation = DepthCalculation.Distance) ∧
    (∀ (p : OrthographicProjection) (l : List (F32 × F32)),
      (p.updates l).depth_calculation = DepthCalculation.ZDifference) ∧
    (∀ (p : ScaledOrthographicProjection) (l : List (F32 × F32)),
      (p.updates l).depth_calculation = DepthCalculation.ZDifference) :=
  ⟨fun _ _ => rfl, fun _ _ => rfl, fun _ _ => rfl⟩

/-- Counterexample to claim C6 as stated: a `ScaledOrthographicProjection`
with `base_axis = Horizontal` resized with `update(2.0, 0.0)` gets
`aspect_ratio = 0/2 = 0.0`, a finite value — not infinity and not
non-finite. -/
theorem c6_counterexample :
    (ScaledOrthographicProjection.update
      { scale := 1, aspect_ratio := 1, near := 0, far := 1000,
        window_origin := WindowOrigin.Center, base_axis := BaseAxis.Horizontal }
      2 0).aspect_ratio = F32.finite 0 ∧
    F32.isFinite ((ScaledOrthographicProjection.update
      { scale := 1, aspect_ratio := 1, near := 0, far := 1000,
        window_origin := WindowOrigin.Center, base_axis := BaseAxis.Horizontal }
      2 0).aspect_ratio) = true := by
  constructor
  · show (0 : F32) / 2 = F32.finite 0
    rw [show (0 : F32) = F32.finite ((0 : ℕ) : ℚ) from rfl,
        show (2 : F32) = F32.finite ((2 : ℕ) : ℚ) from rfl,
        F32.finite_div_finite _ _ (by norm_num)]
    norm_num
  · decide

/-- Claim C6 (amended): all operations are total (every embedded operation
is a total function); `update(w, 0.0)` with `w` positive yields
`aspect_ratio = +∞` on `PerspectiveProjection` and on
`ScaledOrthographicProjection` with `base_axis = Vertical`, while
`ScaledOrthographicProjection` with `base_axis = Horizontal` yields the
finite value `0/w = 0` and `OrthographicProjection` stores no aspect ratio
at all. -/
theorem c6_amended_update_zero_height (pp : PerspectiveProjection)
    (sv sh : ScaledOrthographicProjection) (w : F32) (hw : w.isPos = true)
    (hv : sv.base_axis = BaseAxis.Vertical)
    (hh : sh.base_axis = BaseAxis.Horizontal) :
    (pp.update w 0).aspect_ratio = F32.inf ∧
    (sv.update w 0).aspect_ratio = F32.inf ∧
    F32.isFinite ((sh.update w 0).aspect_ratio) = true := by
  refine ⟨F32.pos_div_zero w hw, ?_, ?_⟩
  · obtain ⟨s, a, n, f, wo, ba⟩ := sv
    cases hv
    exact F32.pos_div_zero w hw
  · obtain ⟨s, a, n, f, wo, ba⟩ := sh
    cases hh
    exact F32.isFinite_zero_div w hw

/-- Concrete instance of the amended claim C6: the default perspective
projection resized with `update(2.0, 0.0)` gets `aspect_ratio = +∞`. -/
theorem c6_amended_update_zero_height_witness :
    F32.isPos 2 = true ∧
    (PerspectiveProjection.default.update 2 0).aspect_ratio = F32.inf :=
  ⟨by decide,
   (c6_amended_update_zero_height PerspectiveProjection.default
      ScaledOrthographicProjection.default
      { ScaledOrthographicProjection.default with base_axis := BaseAxis.Horizontal }
      2 (by decide) rfl rfl).1⟩

/-- Claim C7: `update` is idempotent on every variant — applying
`update(w, h)` twice in a row yields exactly the same field state as
applying it once. -/
theorem c7_update_idempotent :
    (∀ (p : PerspectiveProjection) (w h : F32),
      (p.update w h).update w h = p.update w h) ∧
    (∀ (p : OrthographicProjection) (w h : F32),
      (p.update w h).update w h = p.update w h) ∧
    (∀ (p : ScaledOrthographicProjection) (w h : F32),
      (p.update w h).update w h = p.update w h) :=
  ⟨fun p w h => perspective_update_overwrite p w h w h,
   fun p w h => orthographic_update_overwrite p w h w h,
   fun p w h => scaled_update_overwrite p w h w h⟩

/-- Claim C8: `get_projection_matrix` is a deterministic pure function of
the projection's fields — two values of the same variant with identical
field contents produce identical matrices (and, the embedding being
functional, the call mutates nothing). -/
theorem c8_matrix_deterministic :
    (∀ p q : PerspectiveProjection, p.fields = q.fields →
      p.get_projection_matrix = q.get_projection_matrix) ∧
    (∀ p q : OrthographicProjection, p.fields = q.fields →
      p.get_projection_matrix = q.get_projection_matrix) ∧
    (∀ p q : ScaledOrthographicProjection, p.fields = q.fields →
      p.get_projection_matrix = q.get_projection_matrix) := by
  refine ⟨?_, ?_, ?_⟩
  · intro p q hpq
    obtain ⟨a, b, c, d⟩ := p
    obtain ⟨a', b', c', d'⟩ := q
    simp only [PerspectiveProjection.fields, Prod.mk.injEq] at hpq
    obtain ⟨h1, h2, h3, h4⟩ := hpq
    subst h1; subst h2; subst h3; subst h4
    rfl
  · intro p q hpq
    obtain ⟨a, b, c, d, e, f, g⟩ := p
    obtain ⟨a', b', c', d', e', f', g'⟩ := q
    simp only [OrthographicProjection.fields, Prod.mk.injEq] at hpq
    obtain ⟨h1, h2, h3, h4, h5, h6, h7⟩ := hpq
    subst h1; subst h2; subst h3; subst h4; subst h5; subst h6; subst h7
    rfl
  · intro p q hpq
    obtain ⟨a, b, c, d, e, f⟩ := p
    obtain ⟨a', b', c', d', e', f'⟩ := q
    simp only [ScaledOrthographicProjection.fields, Prod.mk.injEq] at hpq
    obtain ⟨h1, h2, h3, h4, h5, h6⟩ := hpq
    subst h1; subst h2; subst h3; subst h4; subst h5; subst h6
    rfl

/-- Concrete instance of claim C8: a literal perspective projection with
the same field contents as the default one produces the same matrix. -/
theorem c8_matrix_deterministic_witness :
    ({ fov := f32_pi / 4, aspect_ratio := 1, near := 1,
       far := 1000 } : PerspectiveProjection).get_projection_matrix
      = PerspectiveProjection.default.get_projection_matrix ∧
    ({ scale := 1, aspect_ratio := 1, near := 0, far := 1000,
       window_origin := WindowOrigin.Center,
       base_axis := BaseAxis.Vertical } :
        ScaledOrthographicProjection).get_projection_matrix
      = ScaledOrthographicProjection.default.get_projection_matrix :=
  ⟨c8_matrix_deterministic.1 _ _ rfl, c8_matrix_deterministic.2.2 _ _ rfl⟩

/-- Claim C9: default construction yields exactly the documented field
values per variant.  `fov = π/4` is read at `f32` precision:
`f32_pi / 4 = 13176795 / 2^24` exactly. -/
theorem c9_default_values :
    PerspectiveProjection.default.fov = F32.finite (13176795 / 16777216) ∧
    PerspectiveProjection.default.near = F32.finite 1 ∧
    PerspectiveProjection.default.far = F32.finite 1000 ∧
    PerspectiveProjection.default.aspect_ratio = F32.finite 1 ∧
    OrthographicProjection.default.left = F32.finite 0 ∧
    OrthographicProjection.default.right = F32.finite 0 ∧
    OrthographicProjection.default.bottom = F32.finite 0 ∧
    OrthographicProjection.default.top = F32.finite 0 ∧
    OrthographicProjection.default.near = F32.finite 0 ∧
    OrthographicProjection.default.far = F32.finite 1000 ∧
    OrthographicProjection.default.window_origin = WindowOrigin.Center ∧
    ScaledOrthographicProjection.default.scale = F32.finite 1 ∧
    ScaledOrthographicProjection.default.aspect_ratio = F32.finite 1 ∧
    ScaledOrthographicProjection.default.near = F32.finite 0 ∧
    ScaledOrthographicProjection.default.far = F32.finite 1000 ∧
    ScaledOrthographicProjection.default.window_origin = WindowOrigin.Center ∧
    ScaledOrthographicProjection.default.base_axis = BaseAxis.Vertical := by
  have hfov : PerspectiveProjection.default.fov
      = F32.finite (13176795 / 16777216) := by
    show f32_pi / 4 = F32.finite (13176795 / 16777216)
    rw [show (4 : F32) = F32.finite ((4 : ℕ) : ℚ) from rfl, f32_pi,
        F32.finite_div_finite _ _ (by norm_num)]
    norm_num
  exact ⟨hfov, by decide, by decide, by decide, by decide, by decide, by decide,
    by decide, by decide, by decide, rfl, by decide, by decide, by decide,
    by decide, rfl, rfl⟩

/-- Claim C10: `update` is history-independent on every variant — applying
any sequence of updates ending in `update(w, h)` yields exactly the state
obtained by applying only that last `update(w, h)` to the original
value. -/
theorem c10_update_history_independent :
    (∀ (p : PerspectiveProjection) (l : List (F32 × F32)) (w h : F32),
      p.updates (l ++ [(w, h)]) = p.update w h) ∧
    (∀ (p : OrthographicProjection) (l : List (F32 × F32)) (w h : F32),
      p.updates (l ++ [(w, h)]) = p.update w h) ∧
    (∀ (p : ScaledOrthographicProjection) (l : List (F32 × F32)) (w h : F32),
      p.updates (l ++ [(w, h)]) = p.update w h) := by
  refine ⟨?_, ?_, ?_⟩
  · intro p l w h
    have hsplit : p.updates (l ++ [(w, h)]) = (p.updates l).update w h := by
      simp [PerspectiveProjection.updates, List.foldl_append]
    rw [hsplit, perspective_updates_last]
  · intro p l w h
    have hsplit : p.updates (l ++ [(w, h)]) = (p.updates l).update w h := by
      simp [OrthographicProjection.updates, List.foldl_append]
    rw [hsplit, orthographic_updates_last]
  · intro p l w h
    have hsplit : p.updates (l ++ [(w, h)]) = (p.updates l).update w h := by
      simp [ScaledOrthographicProjection.updates, List.foldl_append]
    rw [hsplit, scaled_updates_last]
